import Mathlib

/-!
Shallow embedding of the `clinicaio` package (files `clinicaio/file_type.py`,
`clinicaio/preprocessing.py`, `clinicaio/main.py`), together with theorems
settling the behavioural claims about it.

The module `clinicaio/enum.py` is imported by the sources but is not part of
the source tree given here; the enumerations it provides (`Preprocessing`,
`LinearModality`, `ImageModality`, `Tracer`, `SUVRReferenceRegions`,
`DTIMeasure`, `DTISpace`) are modelled from the specification, as noted on
each definition.
-/

namespace Clinicaio

/-- Modelled from the spec: the `Preprocessing` enum of the missing module
`clinicaio/enum.py` — the closed set of pipeline identifiers
{T1_LINEAR, T2_LINEAR, FLAIR_LINEAR, PET_LINEAR, CUSTOM, DWI_DTI}, whose
string values are the hyphenated pipeline tags (the spec's end-to-end example
maps T1_LINEAR to the folder `t1_linear` after replacing `-` by `_`, and the
source itself writes the literal tag `pet-linear`). -/
inductive Preprocessing
  | T1_LINEAR
  | T2_LINEAR
  | FLAIR_LINEAR
  | PET_LINEAR
  | CUSTOM
  | DWI_DTI
  deriving DecidableEq

/-- Modelled from the spec: the string value carried by each `Preprocessing`
enum member (the hyphenated pipeline tag). -/
def Preprocessing.value : Preprocessing → String
  | .T1_LINEAR => "t1-linear"
  | .T2_LINEAR => "t2-linear"
  | .FLAIR_LINEAR => "flair-linear"
  | .PET_LINEAR => "pet-linear"
  | .CUSTOM => "custom"
  | .DWI_DTI => "dwi-dti"

/-- Python `self.preprocessing not in Preprocessing` tests membership of the
value in the enum; an enum member is always a member, so this is `true` on
every constructor (spelled out branch by branch to mirror the runtime test). -/
def Preprocessing.isMember : Preprocessing → Bool
  | .T1_LINEAR => true
  | .T2_LINEAR => true
  | .FLAIR_LINEAR => true
  | .PET_LINEAR => true
  | .CUSTOM => true
  | .DWI_DTI => true

/-- Modelled from the spec: the `LinearModality` enum of the missing
`clinicaio/enum.py` (modalities of the shared linear-pipeline builder), with
the BIDS modality suffixes as values. -/
inductive LinearModality
  | T1W
  | T2W
  | FLAIR
  deriving DecidableEq

/-- Modelled from the spec: string values of `LinearModality`. -/
def LinearModality.value : LinearModality → String
  | .T1W => "T1w"
  | .T2W => "T2w"
  | .FLAIR => "FLAIR"

/-- Modelled from the spec: the `ImageModality` enum members used by the
sources (`PET`, `CUSTOM`, `DWI`). -/
inductive ImageModality
  | PET
  | CUSTOM
  | DWI
  deriving DecidableEq

/-- Modelled from the spec: string values of `ImageModality`. -/
def ImageModality.value : ImageModality → String
  | .PET => "pet"
  | .CUSTOM => "custom"
  | .DWI => "dwi"

/-- The second component of `caps_nii` is a `LinearModality` for the
T1/FLAIR/T2 variants and an `ImageModality` for the PET/custom/DTI variants. -/
inductive CapsModality
  | linear (m : LinearModality)
  | image (m : ImageModality)
  deriving DecidableEq

def CapsModality.value : CapsModality → String
  | .linear m => m.value
  | .image m => m.value

/-- Modelled from the spec: the `Tracer` enum of the missing
`clinicaio/enum.py`. The spec names `FFDG` as the default tracer
("FFDG-type tracer") and uses a tracer whose value is `FDG` in its PET
raw-layout property. -/
inductive Tracer
  | FFDG
  | FDG
  deriving DecidableEq

/-- Modelled from the spec: string values of `Tracer`. -/
def Tracer.value : Tracer → String
  | .FFDG => "18FFDG"
  | .FDG => "FDG"

/-- Modelled from the spec: the `SUVRReferenceRegions` enum; the default is
the cerebellum-pons variant 2. -/
inductive SUVRReferenceRegions
  | CEREBELLUMPONS2
  deriving DecidableEq

/-- Modelled from the spec: string values of `SUVRReferenceRegions`. -/
def SUVRReferenceRegions.value : SUVRReferenceRegions → String
  | .CEREBELLUMPONS2 => "cerebellumPons2"

/-- Modelled from the spec: the `DTIMeasure` enum; the default is fractional
anisotropy. -/
inductive DTIMeasure
  | FRACTIONAL_ANISOTROPY
  deriving DecidableEq

/-- Modelled from the spec: string values of `DTIMeasure`. -/
def DTIMeasure.value : DTIMeasure → String
  | .FRACTIONAL_ANISOTROPY => "FA"

/-- Modelled from the spec: the `DTISpace` enum; the default space is "all". -/
inductive DTISpace
  | ALL
  deriving DecidableEq

/-- Modelled from the spec: string values of `DTISpace`. -/
def DTISpace.value : DTISpace → String
  | .ALL => "all"

/-- Python `str.replace("-", "_")`, the only `replace` the sources perform
(`compute_folder` in preprocessing.py and `preprocessing_folder` in main.py).
Its pattern is the single character `-`, so replacing every occurrence is
exactly the character map sending `-` to `_`. -/
def replaceDashUnderscore (s : String) : String :=
  ⟨s.data.map fun c => if c = '-' then '_' else c⟩

/-- `clinicaio/file_type.py`: the `FileType` pydantic model — a glob pattern,
a human description and an optional needed-pipeline tag. -/
structure FileType where
  pattern : String
  description : String
  needed_pipeline : Option String := none
  deriving DecidableEq

/-- Outcome of the pydantic `pattern` field validator: a `ValueError` raised by
the validator body (turned into a validation error by pydantic), or the
`IndexError` that `v[0]` raises on an empty string (which pydantic does not
convert into a validation error). -/
inductive PatternError
  | indexError
  | valueError (msg : String)
  deriving DecidableEq

/-- The message of the `ValueError` raised by `FileType.check_pattern`. -/
def pattern_error_msg : String :=
  "pattern argument cannot start with char: / (does not work in os.path.join function). If you want to indicate the exact name of the file, use the format directory_name/filename.extension or filename.extension in the pattern argument."

/-- `FileType.check_pattern` (file_type.py, lines 13-21): evaluates `v[0]`
(an `IndexError` when `v` is empty) and raises a `ValueError` when the first
character is `/`; otherwise returns `v` unchanged. -/
def check_pattern (v : String) : Except PatternError String :=
  match v.data with
  | [] => .error .indexError
  | c :: _ => if c = '/' then .error (.valueError pattern_error_msg) else .ok v

/-- Construction of a `FileType`: pydantic runs `check_pattern` on the
`pattern` argument before building the record. -/
def FileType.create (pattern description : String)
    (needed_pipeline : Option String := none) : Except PatternError FileType :=
  (check_pattern pattern).map fun p =>
    { pattern := p, description := description, needed_pipeline := needed_pipeline }

/-- A Python exception raised by the preprocessing code paths modelled here. -/
inductive PyError
  | notImplementedError (msg : String)
  deriving DecidableEq

/-- Fields of `PETPreprocessingConfig` (preprocessing.py, lines 88-95): the
base-class fields `from_bids`, `preprocessing`, `use_uncropped_image` plus
`tracer` and `suvr_reference_region`, with the source's defaults. -/
structure PETPreprocessingConfig where
  from_bids : Bool := false
  preprocessing : Preprocessing := .PET_LINEAR
  use_uncropped_image : Bool := false
  tracer : Tracer := .FFDG
  suvr_reference_region : SUVRReferenceRegions := .CEREBELLUMPONS2
  deriving DecidableEq

/-- Fields of `CustomPreprocessingConfig` (preprocessing.py, lines 121-127). -/
structure CustomPreprocessingConfig where
  from_bids : Bool := false
  preprocessing : Preprocessing := .CUSTOM
  use_uncropped_image : Bool := false
  custom_suffix : String := ""
  deriving DecidableEq

/-- Fields of `DTIPreprocessingConfig` (preprocessing.py, lines 142-149). -/
structure DTIPreprocessingConfig where
  from_bids : Bool := false
  preprocessing : Preprocessing := .DWI_DTI
  use_uncropped_image : Bool := false
  dti_measure : DTIMeasure := .FRACTIONAL_ANISOTROPY
  dti_space : DTISpace := .ALL
  deriving DecidableEq

/-- Fields of `T1PreprocessingConfig` (preprocessing.py, lines 178-179). -/
structure T1PreprocessingConfig where
  from_bids : Bool := false
  preprocessing : Preprocessing := .T1_LINEAR
  use_uncropped_image : Bool := false
  deriving DecidableEq

/-- Fields of `FlairPreprocessingConfig` (preprocessing.py, lines 191-192). -/
structure FlairPreprocessingConfig where
  from_bids : Bool := false
  preprocessing : Preprocessing := .FLAIR_LINEAR
  use_uncropped_image : Bool := false
  deriving DecidableEq

/-- Fields of `T2PreprocessingConfig` (preprocessing.py, lines 204-205). -/
structure T2PreprocessingConfig where
  from_bids : Bool := false
  preprocessing : Preprocessing := .T2_LINEAR
  use_uncropped_image : Bool := false
  deriving DecidableEq

/-- `PETPreprocessingConfig.bids_nii` (preprocessing.py, lines 97-106).
`if self.tracer:` is always true — `tracer` is a non-optional enum field and
an enum member is truthy — so the tracer segment is always appended;
`if reconstruction:` is false for `None` and for the empty string. -/
def PETPreprocessingConfig.bids_nii (c : PETPreprocessingConfig)
    (reconstruction : Option String := none) : FileType :=
  let trc := "_trc-" ++ c.tracer.value
  let description := "PET data" ++ (" with " ++ c.tracer.value ++ " tracer")
  let recTag := match reconstruction with
    | some r => if r = "" then "" else "_rec-" ++ r
    | none => ""
  let description := description ++ (match reconstruction with
    | some r => if r = "" then "" else " and reconstruction method " ++ r
    | none => "")
  { pattern := "pet/*" ++ trc ++ recTag ++ "_pet.nii*", description := description }

/-- `PETPreprocessingConfig.caps_nii` (preprocessing.py, lines 108-109). -/
def PETPreprocessingConfig.caps_nii (c : PETPreprocessingConfig) :
    Preprocessing × CapsModality :=
  (c.preprocessing, .image .PET)

/-- `PETPreprocessingConfig.get_filetype` (preprocessing.py, lines 111-118). -/
def PETPreprocessingConfig.get_filetype (c : PETPreprocessingConfig) : FileType :=
  let des_crop := if c.use_uncropped_image then "" else "_desc-Crop"
  { pattern := "pet_linear/*_trc-" ++ c.tracer.value ++ "_space-MNI152NLin2009cSym"
      ++ des_crop ++ "_res-1x1x1_suvr-" ++ c.suvr_reference_region.value ++ "_pet.nii.gz"
    description := ""
    needed_pipeline := some "pet-linear" }

/-- `CustomPreprocessingConfig.bids_nii` (preprocessing.py, lines 129-133). -/
def CustomPreprocessingConfig.bids_nii (c : CustomPreprocessingConfig)
    (_reconstruction : Option String := none) : FileType :=
  { pattern := "*" ++ c.custom_suffix, description := "Custom suffix" }

/-- `CustomPreprocessingConfig.caps_nii` (preprocessing.py, lines 135-136). -/
def CustomPreprocessingConfig.caps_nii (c : CustomPreprocessingConfig) :
    Preprocessing × CapsModality :=
  (c.preprocessing, .image .CUSTOM)

/-- `CustomPreprocessingConfig.get_filetype` (preprocessing.py, lines 138-139):
delegates to `bids_nii` (called with its default `reconstruction=None`). -/
def CustomPreprocessingConfig.get_filetype (c : CustomPreprocessingConfig) : FileType :=
  c.bids_nii none

/-- `DTIPreprocessingConfig.bids_nii` (preprocessing.py, lines 151-152). -/
def DTIPreprocessingConfig.bids_nii (_c : DTIPreprocessingConfig)
    (_reconstruction : Option String := none) : FileType :=
  { pattern := "dwi/sub-*_ses-*_dwi.nii*", description := "DWI NIfTI" }

/-- `DTIPreprocessingConfig.caps_nii` (preprocessing.py, lines 154-155). -/
def DTIPreprocessingConfig.caps_nii (c : DTIPreprocessingConfig) :
    Preprocessing × CapsModality :=
  (c.preprocessing, .image .DWI)

/-- `DTIPreprocessingConfig.get_filetype` (preprocessing.py, lines 157-175).
The f-string interpolates the `space` enum member itself; with the str-mixin
enums modelled here that yields its string value. -/
def DTIPreprocessingConfig.get_filetype (c : DTIPreprocessingConfig) : FileType :=
  let measure := c.dti_measure
  let space := c.dti_space
  { pattern := "dwi/dti_based_processing/*/*_space-" ++ space.value ++ "_"
      ++ measure.value ++ ".nii.gz"
    description := "DTI-based " ++ measure.value ++ " in space " ++ space.value ++ "."
    needed_pipeline := some "dwi_dti" }

/-- `T1PreprocessingConfig.bids_nii` (preprocessing.py, lines 181-182). -/
def T1PreprocessingConfig.bids_nii (_c : T1PreprocessingConfig)
    (_reconstruction : Option String := none) : FileType :=
  { pattern := "anat/sub-*_ses-*_T1w.nii*", description := "T1w MRI" }

/-- `T1PreprocessingConfig.caps_nii` (preprocessing.py, lines 184-185). -/
def T1PreprocessingConfig.caps_nii (c : T1PreprocessingConfig) :
    Preprocessing × CapsModality :=
  (c.preprocessing, .linear .T1W)

/-- `FlairPreprocessingConfig.bids_nii` (preprocessing.py, lines 194-195). -/
def FlairPreprocessingConfig.bids_nii (_c : FlairPreprocessingConfig)
    (_reconstruction : Option String := none) : FileType :=
  { pattern := "sub-*_ses-*_flair.nii*", description := "FLAIR T2w MRI" }

/-- `FlairPreprocessingConfig.caps_nii` (preprocessing.py, lines 197-198):
returns the T2w linear modality. -/
def FlairPreprocessingConfig.caps_nii (c : FlairPreprocessingConfig) :
    Preprocessing × CapsModality :=
  (c.preprocessing, .linear .T2W)

/-- `T2PreprocessingConfig.bids_nii` (preprocessing.py, lines 207-210): always
raises `NotImplementedError`. -/
def T2PreprocessingConfig.bids_nii (c : T2PreprocessingConfig)
    (_reconstruction : Option String := none) : Except PyError FileType :=
  .error (.notImplementedError
    ("Extraction of preprocessing " ++ c.preprocessing.value
      ++ " is not implemented from BIDS directory."))

/-- `T2PreprocessingConfig.caps_nii` (preprocessing.py, lines 212-213):
returns the FLAIR linear modality. -/
def T2PreprocessingConfig.caps_nii (c : T2PreprocessingConfig) :
    Preprocessing × CapsModality :=
  (c.preprocessing, .linear .FLAIR)

/-- A preprocessing configuration: one constructor per concrete subclass of
`PreprocessingConfig` (the members of `ALL_PREPROCESSING_TYPES`,
preprocessing.py lines 219-226). -/
inductive Config
  | pet (c : PETPreprocessingConfig)
  | custom (c : CustomPreprocessingConfig)
  | dti (c : DTIPreprocessingConfig)
  | t1 (c : T1PreprocessingConfig)
  | flair (c : FlairPreprocessingConfig)
  | t2 (c : T2PreprocessingConfig)
  deriving DecidableEq

/-- The inherited `from_bids` field (preprocessing.py, line 27). -/
def Config.from_bids : Config → Bool
  | .pet c => c.from_bids
  | .custom c => c.from_bids
  | .dti c => c.from_bids
  | .t1 c => c.from_bids
  | .flair c => c.from_bids
  | .t2 c => c.from_bids

/-- The inherited `preprocessing` field (preprocessing.py, line 28). -/
def Config.preprocessing : Config → Preprocessing
  | .pet c => c.preprocessing
  | .custom c => c.preprocessing
  | .dti c => c.preprocessing
  | .t1 c => c.preprocessing
  | .flair c => c.preprocessing
  | .t2 c => c.preprocessing

/-- The inherited `use_uncropped_image` field (preprocessing.py, line 29). -/
def Config.use_uncropped_image : Config → Bool
  | .pet c => c.use_uncropped_image
  | .custom c => c.use_uncropped_image
  | .dti c => c.use_uncropped_image
  | .t1 c => c.use_uncropped_image
  | .flair c => c.use_uncropped_image
  | .t2 c => c.use_uncropped_image

/-- Virtual dispatch of `caps_nii` over the concrete variants. -/
def Config.caps_nii : Config → Preprocessing × CapsModality
  | .pet c => c.caps_nii
  | .custom c => c.caps_nii
  | .dti c => c.caps_nii
  | .t1 c => c.caps_nii
  | .flair c => c.caps_nii
  | .t2 c => c.caps_nii

/-- Virtual dispatch of `bids_nii` over the concrete variants; only the T2
variant raises, so the others are wrapped in `.ok`. -/
def Config.bids_nii : Config → Option String → Except PyError FileType
  | .pet c, reconstruction => .ok (c.bids_nii reconstruction)
  | .custom c, reconstruction => .ok (c.bids_nii reconstruction)
  | .dti c, reconstruction => .ok (c.bids_nii reconstruction)
  | .t1 c, reconstruction => .ok (c.bids_nii reconstruction)
  | .flair c, reconstruction => .ok (c.bids_nii reconstruction)
  | .t2 c, reconstruction => c.bids_nii reconstruction

/-- `PreprocessingConfig.compute_folder` (preprocessing.py, lines 49-54):
the hyphenated tag when `from_bids`, the tag with `-` replaced by `_`
otherwise. -/
def Config.compute_folder (c : Config) (from_bids : Bool := false) : String :=
  if from_bids then c.preprocessing.value
  else replaceDashUnderscore c.preprocessing.value

/-- `PreprocessingConfig.linear_nii` (preprocessing.py, lines 68-85): the
shared linear-pipeline builder used by the T1/FLAIR/T2 `get_filetype`. -/
def Config.linear_nii (c : Config) : FileType :=
  let np := (c.caps_nii).1
  let modality := (c.caps_nii).2
  let desc_crop := if c.use_uncropped_image then "" else "_desc-Crop"
  { pattern := "*space-MNI152NLin2009cSym" ++ desc_crop ++ "_res-1x1x1_"
      ++ modality.value ++ ".nii.gz"
    description := modality.value ++ " Image registered in MNI152NLin2009cSym space using "
      ++ np.value ++ " pipeline "
      ++ (if c.use_uncropped_image then ""
          else "and cropped (matrix size 169×208×179, 1 mm isotropic voxels)")
    needed_pipeline := some np.value }

/-- Virtual dispatch of `get_filetype`: the T1/FLAIR/T2 variants delegate to
`linear_nii` (preprocessing.py lines 187-188, 200-201, 215-216). -/
def Config.get_filetype : Config → FileType
  | .pet c => c.get_filetype
  | .custom c => c.get_filetype
  | .dti c => c.get_filetype
  | .t1 c => Config.linear_nii (.t1 c)
  | .flair c => Config.linear_nii (.flair c)
  | .t2 c => Config.linear_nii (.t2 c)

/-- Whether the configuration is the T2 variant. -/
def Config.isT2 : Config → Bool
  | .t2 _ => true
  | _ => false

/-- The `file_type` computed field (preprocessing.py, lines 56-66): `bids_nii()`
when `from_bids`; otherwise a `NotImplementedError` when the tag is not a
member of the `Preprocessing` enum, and `get_filetype()` when it is. -/
def Config.file_type (c : Config) : Except PyError FileType :=
  if c.from_bids then c.bids_nii none
  else if !(c.preprocessing.isMember) then
    .error (.notImplementedError
      ("Extraction of preprocessing " ++ c.preprocessing.value
        ++ " is not implemented from CAPS directory."))
  else .ok c.get_filetype

/-- The configuration classes the registry can name: one per concrete
subclass listed in `ALL_PREPROCESSING_TYPES` (preprocessing.py, 219-226). -/
inductive ConfigClass
  | T1PreprocessingConfig
  | T2PreprocessingConfig
  | FlairPreprocessingConfig
  | PETPreprocessingConfig
  | CustomPreprocessingConfig
  | DTIPreprocessingConfig
  deriving DecidableEq

/-- Default construction of each configuration class (every field takes its
declared default), as the registry's caller does. -/
def ConfigClass.defaultInstance : ConfigClass → Config
  | .T1PreprocessingConfig => .t1 {}
  | .T2PreprocessingConfig => .t2 {}
  | .FlairPreprocessingConfig => .flair {}
  | .PETPreprocessingConfig => .pet {}
  | .CustomPreprocessingConfig => .custom {}
  | .DTIPreprocessingConfig => .dti {}

/-- `get_preprocessing` (preprocessing.py, lines 229-246), on an enum member
(the string branch of the Union is the enum's own constructor): the chain of
`if`/`elif` branches, and the final `raise ValueError` for any tag without a
branch. -/
def get_preprocessing (preprocessing_type : Preprocessing) :
    Except String ConfigClass :=
  if preprocessing_type = .T1_LINEAR then .ok .T1PreprocessingConfig
  else if preprocessing_type = .PET_LINEAR then .ok .PETPreprocessingConfig
  else if preprocessing_type = .FLAIR_LINEAR then .ok .FlairPreprocessingConfig
  else if preprocessing_type = .CUSTOM then .ok .CustomPreprocessingConfig
  else if preprocessing_type = .DWI_DTI then .ok .DTIPreprocessingConfig
  else .error ("Preprocessing " ++ preprocessing_type.value ++ " is not implemented.")

/-- `CapsReader` (main.py, lines 29-53): holds the root directory. A path is
modelled as its list of segments; the `/` of `pathlib.Path` appends one. -/
structure CapsReader where
  input_directory : List String

/-- `CapsReader.preprocessing_folder` (main.py, lines 37-47):
`root / "subjects" / subject / session / tag-with-underscores`. -/
def CapsReader.preprocessing_folder (r : CapsReader) (subject session : String)
    (preprocessing : Preprocessing) : List String :=
  r.input_directory
    ++ ["subjects", subject, session, replaceDashUnderscore preprocessing.value]

/-- Every `Preprocessing` enum member is a member of the enum. -/
theorem Preprocessing.isMember_eq_true (p : Preprocessing) : p.isMember = true := by
  cases p <;> rfl

/-- Claim C1, counterexample: `get_preprocessing` does not return a
configuration class for every member of the enum — at `T2_LINEAR` it takes
the final `else` branch and raises `ValueError`, because the `if`/`elif`
chain has branches for only five of the six tags. -/
theorem get_preprocessing_t2_counterexample :
    get_preprocessing Preprocessing.T2_LINEAR
      = Except.error "Preprocessing t2-linear is not implemented." := rfl

/-- Claim C1, amended: for the five tags T1_LINEAR, PET_LINEAR, FLAIR_LINEAR,
CUSTOM and DWI_DTI, `get_preprocessing` returns a configuration class whose
default-constructed instance has a `preprocessing` field equal to that tag;
for T2_LINEAR it raises `ValueError("Preprocessing t2-linear is not
implemented.")`. -/
theorem get_preprocessing_registry :
    get_preprocessing .T1_LINEAR = .ok .T1PreprocessingConfig ∧
    (ConfigClass.defaultInstance .T1PreprocessingConfig).preprocessing = .T1_LINEAR ∧
    get_preprocessing .PET_LINEAR = .ok .PETPreprocessingConfig ∧
    (ConfigClass.defaultInstance .PETPreprocessingConfig).preprocessing = .PET_LINEAR ∧
    get_preprocessing .FLAIR_LINEAR = .ok .FlairPreprocessingConfig ∧
    (ConfigClass.defaultInstance .FlairPreprocessingConfig).preprocessing = .FLAIR_LINEAR ∧
    get_preprocessing .CUSTOM = .ok .CustomPreprocessingConfig ∧
    (ConfigClass.defaultInstance .CustomPreprocessingConfig).preprocessing = .CUSTOM ∧
    get_preprocessing .DWI_DTI = .ok .DTIPreprocessingConfig ∧
    (ConfigClass.defaultInstance .DTIPreprocessingConfig).preprocessing = .DWI_DTI ∧
    get_preprocessing .T2_LINEAR
      = .error "Preprocessing t2-linear is not implemented." :=
  ⟨rfl, rfl, rfl, rfl, rfl, rfl, rfl, rfl, rfl, rfl, rfl⟩

/-- Claim C2, counterexample: the empty pattern does not begin with `/`, yet
`FileType` construction does not accept it — `v[0]` raises `IndexError`. -/
theorem filetype_empty_pattern_counterexample :
    FileType.create "" "description" none = Except.error PatternError.indexError ∧
    "".data.head? ≠ some '/' :=
  ⟨rfl, by decide⟩

/-- Claim C2, amended: `FileType` construction fails with the validation
error (with the message explaining the reason and the accepted alternative
forms) if and only if the pattern begins with `/`; every nonempty pattern not
beginning with `/` is accepted unchanged; the empty pattern is not accepted —
it fails with an `IndexError` from reading its first character. -/
theorem filetype_pattern_validation (v d : String) (np : Option String) :
    (v.data.head? = some '/' →
      FileType.create v d np = Except.error (.valueError pattern_error_msg)) ∧
    (v = "" → FileType.create v d np = Except.error .indexError) ∧
    (v ≠ "" → v.data.head? ≠ some '/' →
      FileType.create v d np
        = Except.ok { pattern := v, description := d, needed_pipeline := np }) := by
  obtain ⟨l⟩ := v
  refine ⟨?_, ?_, ?_⟩
  · intro h
    cases l with
    | nil => simp at h
    | cons c t =>
      simp at h
      simp [FileType.create, check_pattern, h, Except.map]
  · intro h
    cases l with
    | nil => rfl
    | cons c t => simp [String.ext_iff] at h
  · intro h1 h2
    cases l with
    | nil => simp [String.ext_iff] at h1
    | cons c t =>
      simp at h2
      simp [FileType.create, check_pattern, h2, Except.map]

/-- Claim C2, witness: the three cases of the amended statement at concrete
patterns `/abs`, `` and `a.nii`. -/
theorem filetype_pattern_validation_witness :
    FileType.create "/abs" "d" none = Except.error (.valueError pattern_error_msg) ∧
    FileType.create "" "d" none = Except.error .indexError ∧
    FileType.create "a.nii" "d" none
      = Except.ok { pattern := "a.nii", description := "d", needed_pipeline := none } :=
  ⟨(filetype_pattern_validation "/abs" "d" none).1 (by decide),
   (filetype_pattern_validation "" "d" none).2.1 rfl,
   (filetype_pattern_validation "a.nii" "d" none).2.2 (by decide) (by decide)⟩

/-- Claim C3: the `file_type` computed field returns `bids_nii()` when
`from_bids` is set; otherwise it returns `get_filetype()` when the tag is a
member of the enum and raises the CAPS `NotImplementedError` when it is not
(a branch whose hypothesis is unsatisfiable — see the claim on its
unreachability); in particular with `from_bids` set the T2 variant raises the
BIDS `NotImplementedError` and every other variant returns a `FileType`. -/
theorem file_type_resolution (c : Config) :
    (c.from_bids = true → c.file_type = c.bids_nii none) ∧
    (c.from_bids = false → c.preprocessing.isMember = true →
      c.file_type = Except.ok c.get_filetype) ∧
    (c.from_bids = false → c.preprocessing.isMember = false →
      c.file_type = Except.error (PyError.notImplementedError
        ("Extraction of preprocessing " ++ c.preprocessing.value
          ++ " is not implemented from CAPS directory."))) ∧
    (c.from_bids = true → c.isT2 = true →
      c.file_type = Except.error (PyError.notImplementedError
        ("Extraction of preprocessing " ++ c.preprocessing.value
          ++ " is not implemented from BIDS directory."))) ∧
    (c.from_bids = true → c.isT2 = false → ∃ ft, c.file_type = Except.ok ft) := by
  refine ⟨?_, ?_, ?_, ?_, ?_⟩
  · intro h; simp [Config.file_type, h]
  · intro h1 h2; simp [Config.file_type, h1, h2]
  · intro h1 h2; simp [Config.file_type, h1, h2]
  · intro h1 h2
    cases c with
    | t2 cc =>
      simp [Config.from_bids] at h1
      simp [Config.file_type, Config.from_bids, h1, Config.bids_nii,
        T2PreprocessingConfig.bids_nii, Config.preprocessing]
    | pet cc => simp [Config.isT2] at h2
    | custom cc => simp [Config.isT2] at h2
    | dti cc => simp [Config.isT2] at h2
    | t1 cc => simp [Config.isT2] at h2
    | flair cc => simp [Config.isT2] at h2
  · intro h1 h2
    cases c with
    | t2 cc => simp [Config.isT2] at h2
    | pet cc =>
      simp [Config.from_bids] at h1
      exact ⟨cc.bids_nii none,
        by simp [Config.file_type, Config.from_bids, h1, Config.bids_nii]⟩
    | custom cc =>
      simp [Config.from_bids] at h1
      exact ⟨cc.bids_nii none,
        by simp [Config.file_type, Config.from_bids, h1, Config.bids_nii]⟩
    | dti cc =>
      simp [Config.from_bids] at h1
      exact ⟨cc.bids_nii none,
        by simp [Config.file_type, Config.from_bids, h1, Config.bids_nii]⟩
    | t1 cc =>
      simp [Config.from_bids] at h1
      exact ⟨cc.bids_nii none,
        by simp [Config.file_type, Config.from_bids, h1, Config.bids_nii]⟩
    | flair cc =>
      simp [Config.from_bids] at h1
      exact ⟨cc.bids_nii none,
        by simp [Config.file_type, Config.from_bids, h1, Config.bids_nii]⟩

/-- Claim C3, witness: `file_type` at a default T1 config (CAPS branch), at a
T1 config taken from BIDS, and at a T2 config taken from BIDS. -/
theorem file_type_resolution_witness :
    (Config.t1 {}).file_type = Except.ok (Config.t1 {}).get_filetype ∧
    (Config.t1 { from_bids := true }).file_type
      = (Config.t1 { from_bids := true }).bids_nii none ∧
    (Config.t2 { from_bids := true }).file_type
      = Except.error (PyError.notImplementedError
          ("Extraction of preprocessing "
            ++ (Config.t2 { from_bids := true }).preprocessing.value
            ++ " is not implemented from BIDS directory.")) :=
  ⟨(file_type_resolution (Config.t1 {})).2.1 rfl rfl,
   (file_type_resolution (Config.t1 { from_bids := true })).1 rfl,
   (file_type_resolution (Config.t2 { from_bids := true })).2.2.2.1 rfl rfl⟩

/-- Claim C4: `T2PreprocessingConfig.bids_nii` always raises
`NotImplementedError`, for every reconstruction argument and every field
assignment of the config. -/
theorem t2_bids_nii_always_raises (c : T2PreprocessingConfig)
    (reconstruction : Option String) :
    c.bids_nii reconstruction = Except.error (PyError.notImplementedError
      ("Extraction of preprocessing " ++ c.preprocessing.value
        ++ " is not implemented from BIDS directory.")) := rfl

/-- Claim C5: `compute_folder(from_bids=True)` is the hyphenated pipeline tag
unchanged, `compute_folder(from_bids=False)` is the same string with every
`-` replaced by `_`, for every configuration; the concrete folder names of
the six default variants spell the substitution out. -/
theorem compute_folder_hyphen_underscore (c : Config) :
    c.compute_folder true = c.preprocessing.value ∧
    c.compute_folder false = replaceDashUnderscore c.preprocessing.value ∧
    (Config.t1 {}).compute_folder true = "t1-linear" ∧
    (Config.t1 {}).compute_folder false = "t1_linear" ∧
    (Config.t2 {}).compute_folder false = "t2_linear" ∧
    (Config.flair {}).compute_folder false = "flair_linear" ∧
    (Config.pet {}).compute_folder false = "pet_linear" ∧
    (Config.custom {}).compute_folder false = "custom" ∧
    (Config.dti {}).compute_folder false = "dwi_dti" :=
  ⟨rfl, rfl, rfl, rfl, rfl, rfl, rfl, rfl, rfl⟩

set_option maxRecDepth 8000 in
/-- Claim C6: the T1 derived-layout file type with `use_uncropped_image=False`
has the crop qualifier `_desc-Crop` in its pattern and the fixed
crop-dimension text in its description; with `use_uncropped_image=True` it
has neither — whatever the other fields of the config are. -/
theorem t1_crop_qualifier (fb : Bool) (p : Preprocessing) :
    List.IsInfix "_desc-Crop".data
      (Config.get_filetype (.t1 ⟨fb, p, false⟩)).pattern.data ∧
    List.IsInfix "matrix size 169×208×179, 1 mm isotropic voxels".data
      (Config.get_filetype (.t1 ⟨fb, p, false⟩)).description.data ∧
    ¬ List.IsInfix "_desc-Crop".data
      (Config.get_filetype (.t1 ⟨fb, p, true⟩)).pattern.data ∧
    ¬ List.IsInfix "matrix size 169×208×179, 1 mm isotropic voxels".data
      (Config.get_filetype (.t1 ⟨fb, p, true⟩)).description.data := by
  cases fb <;> cases p <;>
    exact ⟨by decide, by decide, by decide, by decide⟩

/-- Claim C7: the PET raw-layout file type with the FDG tracer and
reconstruction `OSEM` has `_trc-FDG` and `_rec-OSEM` in its pattern, and its
description mentions the tracer and the reconstruction method. -/
theorem pet_fdg_osem :
    List.IsInfix "_trc-FDG".data
      (PETPreprocessingConfig.bids_nii { tracer := .FDG } (some "OSEM")).pattern.data ∧
    List.IsInfix "_rec-OSEM".data
      (PETPreprocessingConfig.bids_nii { tracer := .FDG } (some "OSEM")).pattern.data ∧
    List.IsInfix "FDG tracer".data
      (PETPreprocessingConfig.bids_nii { tracer := .FDG } (some "OSEM")).description.data ∧
    List.IsInfix "reconstruction method OSEM".data
      (PETPreprocessingConfig.bids_nii { tracer := .FDG } (some "OSEM")).description.data := by
  refine ⟨by decide, by decide, by decide, by decide⟩

/-- Claim C8: `CapsReader.preprocessing_folder(subject, session, tag)` is the
path `root/subjects/<subject>/<session>/<tag with - replaced by _>` for every
root, subject, session and tag; in particular it sends `sub-01`, `ses-M00`,
`T1_LINEAR` under root `root` to `root/subjects/sub-01/ses-M00/t1_linear`. -/
theorem caps_preprocessing_folder (root : List String)
    (subject session : String) (p : Preprocessing) :
    CapsReader.preprocessing_folder ⟨root⟩ subject session p
      = root ++ ["subjects", subject, session, replaceDashUnderscore p.value] ∧
    CapsReader.preprocessing_folder ⟨root⟩ subject session .T1_LINEAR
      = root ++ ["subjects", subject, session, "t1_linear"] ∧
    CapsReader.preprocessing_folder ⟨["root"]⟩ "sub-01" "ses-M00" .T1_LINEAR
      = ["root", "subjects", "sub-01", "ses-M00", "t1_linear"] :=
  ⟨rfl, rfl, rfl⟩

/-- Claim C9: the modality tag of `caps_nii` is `LinearModality.T2W` for every
FLAIR config and `LinearModality.FLAIR` for every T2 config — swapped
relative to the variants' own modality names. -/
theorem flair_t2_modalities_swapped (cf : FlairPreprocessingConfig)
    (ct : T2PreprocessingConfig) :
    (Config.caps_nii (.flair cf)).2 = CapsModality.linear .T2W ∧
    (Config.caps_nii (.t2 ct)).2 = CapsModality.linear .FLAIR :=
  ⟨rfl, rfl⟩

/-- Claim C10: for every configuration with `from_bids=False`, the
`preprocessing` field is a member of the `Preprocessing` enum, so the
unrecognized-tag branch of `file_type` is unreachable: `file_type` never
raises there and always returns `get_filetype()`. -/
theorem file_type_caps_branch_total (c : Config) (h : c.from_bids = false) :
    c.preprocessing.isMember = true ∧
    c.file_type = Except.ok c.get_filetype := by
  refine ⟨Preprocessing.isMember_eq_true _, ?_⟩
  simp [Config.file_type, h, Preprocessing.isMember_eq_true]

/-- Claim C10, witness: the CAPS branch at a default PET config. -/
theorem file_type_caps_branch_total_witness :
    (Config.pet {}).preprocessing.isMember = true ∧
    (Config.pet {}).file_type = Except.ok (Config.pet {}).get_filetype :=
  file_type_caps_branch_total (Config.pet {}) rfl

end Clinicaio
